import Mathlib

/-!
Verification of the RangeIQ energy-prediction and crowd-aggregation engine.

The TypeScript sources are shallowly embedded: JavaScript numbers are
modelled as rationals (`ℚ`), except where the code calls `Math.exp`
(the confidence scorer), which is modelled over the reals (`ℝ`).
`Math.round` is JavaScript round-half-up, modelled as `⌊x + 1/2⌋`.
Stateful Cosmos-DB containers are modelled as association lists keyed
by the document id, and the async read/upsert/create calls become
explicit state passing.  Wall-clock timestamp fields (`createdAt`,
`lastUpdated`, `syncTimestamp`) are not representable in a pure
embedding and are omitted; no verified property mentions them.
-/

set_option maxHeartbeats 1000000

/-- JavaScript `Math.round`: round half toward positive infinity. -/
def jsRound (q : ℚ) : ℤ := ⌊q + 1 / 2⌋

/-- The source idiom `Math.round(x * 100) / 100` (round to 2 decimal places). -/
def round2 (q : ℚ) : ℚ := (jsRound (q * 100) : ℚ) / 100

/-! ## Vehicle model (`src/types/vehicle.ts`) -/

/-- Nexon EV variant specification.  Only the fields read by the
prediction/store logic are carried; the remaining spec-sheet scalars
(motor power, torque, top speed, charging power, ...) are constants
that no verified code path reads. -/
structure NexonEVVariant where
  id : String
  batteryCapacity : ℚ
  baseConsumption : ℚ
deriving DecidableEq

/-- Regeneration level entry of `REGEN_LEVELS`. -/
structure RegenLevel where
  level : ℕ
  name : String
  recoveryEfficiency : ℚ
deriving DecidableEq

inductive HvacMode where
  | off
  | cooling
  | heating
deriving DecidableEq

/-- Mutable per-session vehicle state (`interface VehicleState`). -/
structure VehicleState where
  variant : NexonEVVariant
  currentSoC : ℚ
  batteryHealth : ℚ
  batteryTemperature : ℚ
  regenLevel : RegenLevel
  hvacOn : Bool
  hvacMode : HvacMode
  hvacTemperature : ℚ
  tirePressure : ℚ
  payload : ℚ
  odometer : ℚ
  isConnected : Bool
deriving DecidableEq

def NEXON_EV_MR : NexonEVVariant :=
  { id := "MR", batteryCapacity := 30, baseConsumption := 130 }

def NEXON_EV_LR : NexonEVVariant :=
  { id := "LR", batteryCapacity := 45, baseConsumption := 140 }

def REGEN_LEVELS : List RegenLevel :=
  [ { level := 0, name := "Off", recoveryEfficiency := 0 },
    { level := 1, name := "Low", recoveryEfficiency := 1 / 10 },
    { level := 2, name := "Medium", recoveryEfficiency := 18 / 100 },
    { level := 3, name := "High", recoveryEfficiency := 1 / 4 } ]

def DEFAULT_VEHICLE_STATE : VehicleState :=
  { variant := NEXON_EV_LR
    currentSoC := 80
    batteryHealth := 98
    batteryTemperature := 25
    regenLevel := { level := 2, name := "Medium", recoveryEfficiency := 18 / 100 }
    hvacOn := false
    hvacMode := .off
    hvacTemperature := 24
    tirePressure := 33
    payload := 75
    odometer := 0
    isConnected := false }

/-- `getAvailableEnergy` from `src/types/vehicle.ts`. -/
def getAvailableEnergy (s : VehicleState) : ℚ :=
  s.variant.batteryCapacity * s.currentSoC * s.batteryHealth / 10000

/-! ## Vehicle store setters (`src/store/vehicleStore.ts`, `useVehicleStore`) -/

def setVariant (v : NexonEVVariant) (s : VehicleState) : VehicleState :=
  { s with variant := v }

def setSoC (soc : ℚ) (s : VehicleState) : VehicleState :=
  { s with currentSoC := max 0 (min 100 soc) }

def setBatteryHealth (health : ℚ) (s : VehicleState) : VehicleState :=
  { s with batteryHealth := max 0 (min 100 health) }

def setBatteryTemperature (temp : ℚ) (s : VehicleState) : VehicleState :=
  { s with batteryTemperature := temp }

def setRegenLevel (level : RegenLevel) (s : VehicleState) : VehicleState :=
  { s with regenLevel := level }

def setHvac (hvacOn : Bool) (mode : HvacMode) (temp : ℚ) (s : VehicleState) : VehicleState :=
  { s with
    hvacOn := hvacOn
    hvacMode := if hvacOn then (if mode = .off then .cooling else mode) else .off
    hvacTemperature := temp }

def setTirePressure (pressure : ℚ) (s : VehicleState) : VehicleState :=
  { s with tirePressure := pressure }

def setPayload (kg : ℚ) (s : VehicleState) : VehicleState :=
  { s with payload := max 0 kg }

def setConnected (connected : Bool) (s : VehicleState) : VehicleState :=
  { s with isConnected := connected }

/-- `updateFromOBD` merges a partial patch with an object spread; every
field present in the patch overwrites the state without validation. -/
structure VehiclePatch where
  currentSoC : Option ℚ := none
  batteryHealth : Option ℚ := none
  batteryTemperature : Option ℚ := none
  tirePressure : Option ℚ := none
  payload : Option ℚ := none
  odometer : Option ℚ := none
  isConnected : Option Bool := none

def updateFromOBD (data : VehiclePatch) (s : VehicleState) : VehicleState :=
  { s with
    currentSoC := data.currentSoC.getD s.currentSoC
    batteryHealth := data.batteryHealth.getD s.batteryHealth
    batteryTemperature := data.batteryTemperature.getD s.batteryTemperature
    tirePressure := data.tirePressure.getD s.tirePressure
    payload := data.payload.getD s.payload
    odometer := data.odometer.getD s.odometer
    isConnected := data.isConnected.getD s.isConnected }

/-! ## Regen-efficiency lookup of the prediction API
(`api/src/functions/predict.ts`) -/

/-- The `REGEN_EFFICIENCY` table: levels 0..3 map to 0, 0.10, 0.18, 0.25. -/
def REGEN_EFFICIENCY (level : ℕ) : Option ℚ :=
  if level = 0 then some 0
  else if level = 1 then some (1 / 10)
  else if level = 2 then some (18 / 100)
  else if level = 3 then some (1 / 4)
  else none

/-- The lookup the handler performs:
`REGEN_EFFICIENCY[vehicleState.regenLevel] || 0.18`.
In JavaScript the `or` fallback fires when the left side is undefined
(level outside 0..3) and also when it is the number 0, because 0 is falsy. -/
def regenEfficiencyApplied (level : ℕ) : ℚ :=
  match REGEN_EFFICIENCY level with
  | none => 18 / 100
  | some e => if e = 0 then 18 / 100 else e

/-! ## Claim theorems: C10 (vehicle-store clamping), C7 (regen lookup) -/

/-- C10 counterexample: the claim says every mutable vehicle-state field is
clamped to its physical range by its setter, naming tire pressure and battery
temperature among them.  `setTirePressure` and `setBatteryTemperature` store
the raw argument: a negative tire pressure of -5 PSI and a battery
temperature of 1000 degrees are persisted verbatim. -/
theorem C10_counterexample :
    (setTirePressure (-5) DEFAULT_VEHICLE_STATE).tirePressure = -5 ∧
    (setBatteryTemperature 1000 DEFAULT_VEHICLE_STATE).batteryTemperature = 1000 := by
  exact ⟨rfl, rfl⟩

/-- C10 amended: `setSoC` and `setBatteryHealth` clamp to [0, 100] and
`setPayload` clamps to be non-negative, but `setTirePressure` and
`setBatteryTemperature` store the given value unclamped. -/
theorem C10_setters_clamp_partially (s : VehicleState) (v : ℚ) :
    (0 ≤ (setSoC v s).currentSoC ∧ (setSoC v s).currentSoC ≤ 100) ∧
    (0 ≤ (setBatteryHealth v s).batteryHealth ∧
      (setBatteryHealth v s).batteryHealth ≤ 100) ∧
    0 ≤ (setPayload v s).payload ∧
    (setTirePressure v s).tirePressure = v ∧
    (setBatteryTemperature v s).batteryTemperature = v := by
  refine ⟨⟨le_max_left _ _, ?_⟩, ⟨le_max_left _ _, ?_⟩, le_max_left _ _, rfl, rfl⟩
  · exact max_le (by norm_num) (min_le_left _ _)
  · exact max_le (by norm_num) (min_le_left _ _)

/-- C7: the code evaluated at its failing input.  The `REGEN_EFFICIENCY`
table itself assigns efficiency 0 to regen level 0, but the applied lookup
`REGEN_EFFICIENCY[level] || 0.18` falls back to 0.18 for level 0 because the
number 0 is falsy in JavaScript; levels 1..3 behave as the table states. -/
theorem C7_regen_level_zero_gets_default :
    REGEN_EFFICIENCY 0 = some 0 ∧
    regenEfficiencyApplied 0 = 18 / 100 ∧
    regenEfficiencyApplied 1 = 1 / 10 ∧
    regenEfficiencyApplied 2 = 18 / 100 ∧
    regenEfficiencyApplied 3 = 1 / 4 := by
  refine ⟨rfl, ?_, ?_, ?_, ?_⟩ <;>
    norm_num [regenEfficiencyApplied, REGEN_EFFICIENCY]

/-! ## Geospatial hashing (`api/src/models/index.ts`, `calculateGeohash`) -/

/-- The fixed base-32 geohash alphabet. -/
def base32Chars : List Char := "0123456789bcdefghjkmnpqrstuvwxyz".toList

/-- The loop state of `calculateGeohash`: the shrinking latitude and
longitude ranges, the longitude/latitude alternation flag, the bit counter,
the 5-bit character accumulator, and the output built so far. -/
structure GeohashState where
  minLat : ℚ
  maxLat : ℚ
  minLng : ℚ
  maxLng : ℚ
  isLng : Bool
  bit : ℕ
  ch : ℕ
  hash : List Char


/-- The range-subdivision half of the while-loop body of `calculateGeohash`:
depending on the alternation flag, compare against the midpoint of the active
longitude or latitude range, append the resulting bit to the character
accumulator (`ch << 1 | 1` is `2 * ch + 1`), and shrink the range. -/
def geohashSubdivide (lat lng : ℚ) (s : GeohashState) : GeohashState :=
  match s.isLng with
  | true =>
    let mid := (s.minLng + s.maxLng) / 2
    if mid ≤ lng then { s with ch := 2 * s.ch + 1, minLng := mid }
    else { s with ch := 2 * s.ch, maxLng := mid }
  | false =>
    let mid := (s.minLat + s.maxLat) / 2
    if mid ≤ lat then { s with ch := 2 * s.ch + 1, minLat := mid }
    else { s with ch := 2 * s.ch, maxLat := mid }

/-- The bookkeeping half of the while-loop body: flip the alternation flag,
advance the bit counter, and after every fifth bit emit one base-32
character and reset the accumulator. -/
def geohashEmit (s : GeohashState) : GeohashState :=
  let s2 := { s with isLng := !s.isLng, bit := s.bit + 1 }
  if s2.bit = 5 then
    { s2 with hash := s2.hash ++ [base32Chars.getD s2.ch '?'], ch := 0, bit := 0 }
  else s2

/-- One full iteration of the while-loop body of `calculateGeohash`. -/
def geohashStep (lat lng : ℚ) (s : GeohashState) : GeohashState :=
  geohashEmit (geohashSubdivide lat lng s)

def geohashLoop (lat lng : ℚ) : ℕ → GeohashState → GeohashState
  | 0, s => s
  | n + 1, s => geohashLoop lat lng n (geohashStep lat lng s)

def geohashInit : GeohashState :=
  { minLat := -90, maxLat := 90, minLng := -180, maxLng := 180,
    isLng := true, bit := 0, ch := 0, hash := [] }

/-- `calculateGeohash(lat, lng, precision)`.  The source loops
`while (hash.length < precision)`; starting from an empty hash with
`bit = 0`, one character is emitted every fifth iteration and `bit`
returns to 0 exactly then, so the loop body runs exactly
`5 * precision` times before the condition first fails. -/
def calculateGeohash (lat lng : ℚ) (precision : ℕ) : List Char :=
  (geohashLoop lat lng (5 * precision) geohashInit).hash

theorem geohashSubdivide_proj (lat lng : ℚ) (s : GeohashState) :
    (geohashSubdivide lat lng s).bit = s.bit ∧
    (geohashSubdivide lat lng s).isLng = s.isLng ∧
    (geohashSubdivide lat lng s).hash = s.hash ∧
    ∃ b, b ≤ 1 ∧ (geohashSubdivide lat lng s).ch = 2 * s.ch + b := by
  rcases s with ⟨mnla, mxla, mnlo, mxlo, il, bit, ch, hash⟩
  cases il <;> dsimp only [geohashSubdivide] <;> split
  · exact ⟨rfl, rfl, rfl, 1, le_rfl, rfl⟩
  · exact ⟨rfl, rfl, rfl, 0, by omega, rfl⟩
  · exact ⟨rfl, rfl, rfl, 1, le_rfl, rfl⟩
  · exact ⟨rfl, rfl, rfl, 0, by omega, rfl⟩

theorem geohashEmit_proj (s : GeohashState) :
    (geohashEmit s).bit = (if s.bit + 1 = 5 then 0 else s.bit + 1) ∧
    (geohashEmit s).ch = (if s.bit + 1 = 5 then 0 else s.ch) ∧
    (geohashEmit s).hash =
      (if s.bit + 1 = 5 then s.hash ++ [base32Chars.getD s.ch '?'] else s.hash) := by
  rcases s with ⟨mnla, mxla, mnlo, mxlo, il, bit, ch, hash⟩
  dsimp only [geohashEmit]
  split <;> rename_i h <;> dsimp only at h ⊢ <;> simp [h]

theorem base32Chars_getD_mem (n : ℕ) (hn : n < 32) :
    base32Chars.getD n '?' ∈ base32Chars := by
  have hlen : base32Chars.length = 32 := by decide
  rw [List.getD_eq_getElem _ _ (by omega)]
  exact List.getElem_mem _

/-- Invariant preservation for one loop iteration: the bit counter stays
below 5, the character accumulator stays below `2 ^ bit`, exactly one bit of
progress is made (measured as `5 * length + bit`), and every emitted
character comes from the base-32 alphabet. -/
theorem geohashStep_spec (lat lng : ℚ) (s : GeohashState)
    (hb : s.bit < 5) (hc : s.ch < 2 ^ s.bit)
    (hh : ∀ c ∈ s.hash, c ∈ base32Chars) :
    (geohashStep lat lng s).bit < 5 ∧
    (geohashStep lat lng s).ch < 2 ^ (geohashStep lat lng s).bit ∧
    5 * (geohashStep lat lng s).hash.length + (geohashStep lat lng s).bit =
      5 * s.hash.length + s.bit + 1 ∧
    ∀ c ∈ (geohashStep lat lng s).hash, c ∈ base32Chars := by
  obtain ⟨h1, _, h3, b, hble, h4⟩ := geohashSubdivide_proj lat lng s
  obtain ⟨e1, e2, e3⟩ := geohashEmit_proj (geohashSubdivide lat lng s)
  rw [h1] at e1 e2 e3
  rw [h3] at e3
  rw [h4] at e2 e3
  have hch2 : 2 * s.ch + b < 2 ^ (s.bit + 1) := by
    have h2 : 2 * s.ch + b < 2 * (s.ch + 1) := by omega
    calc 2 * s.ch + b < 2 * (s.ch + 1) := h2
      _ ≤ 2 * 2 ^ s.bit := by omega
      _ = 2 ^ (s.bit + 1) := by ring
  unfold geohashStep
  by_cases h5 : s.bit + 1 = 5
  · rw [if_pos h5] at e1 e2 e3
    refine ⟨by omega, by rw [e1, e2]; norm_num, ?_, ?_⟩
    · rw [e1, e3]
      simp only [List.length_append, List.length_singleton]
      omega
    · rw [e3]
      intro c hcm
      rcases List.mem_append.mp hcm with h | h
      · exact hh c h
      · have hlt : 2 * s.ch + b < 32 := by
          rw [h5] at hch2
          simpa using hch2
        simpa using List.mem_singleton.mp h ▸ base32Chars_getD_mem _ hlt
  · rw [if_neg h5] at e1 e2 e3
    refine ⟨by omega, by rw [e1, e2]; exact hch2, by rw [e1, e3]; omega, ?_⟩
    rw [e3]
    exact hh

theorem geohashLoop_spec (lat lng : ℚ) :
    ∀ (n : ℕ) (s : GeohashState),
    s.bit < 5 → s.ch < 2 ^ s.bit → (∀ c ∈ s.hash, c ∈ base32Chars) →
    (geohashLoop lat lng n s).bit < 5 ∧
    5 * (geohashLoop lat lng n s).hash.length + (geohashLoop lat lng n s).bit =
      5 * s.hash.length + s.bit + n ∧
    ∀ c ∈ (geohashLoop lat lng n s).hash, c ∈ base32Chars := by
  intro n
  induction n with
  | zero => intro s hb _ hh; exact ⟨hb, by simp [geohashLoop], hh⟩
  | succ k ih =>
    intro s hb hc hh
    obtain ⟨sb, sc, sl, sh⟩ := geohashStep_spec lat lng s hb hc hh
    obtain ⟨tb, tl, th⟩ := ih (geohashStep lat lng s) sb sc sh
    refine ⟨tb, ?_, th⟩
    show 5 * (geohashLoop lat lng k (geohashStep lat lng s)).hash.length +
        (geohashLoop lat lng k (geohashStep lat lng s)).bit = _
    omega

/-- C9: for every latitude in [-90, 90], longitude in [-180, 180] and
positive precision `p`, `calculateGeohash lat lng p` has length exactly `p`,
all its characters come from the 32-character geohash alphabet, and equal
inputs produce equal outputs. -/
theorem C9_geohash_length_alphabet_deterministic
    (lat lng : ℚ) (p : ℕ)
    (hlat1 : -90 ≤ lat) (hlat2 : lat ≤ 90)
    (hlng1 : -180 ≤ lng) (hlng2 : lng ≤ 180) (hp : 0 < p) :
    (calculateGeohash lat lng p).length = p ∧
    (∀ c ∈ calculateGeohash lat lng p, c ∈ base32Chars) ∧
    ∀ lat' lng' : ℚ, lat' = lat → lng' = lng →
      calculateGeohash lat' lng' p = calculateGeohash lat lng p := by
  obtain ⟨tb, tl, th⟩ :=
    geohashLoop_spec lat lng (5 * p) geohashInit (by norm_num [geohashInit])
      (by norm_num [geohashInit]) (by intro c hc; simp [geohashInit] at hc)
  refine ⟨?_, th, ?_⟩
  · have : 5 * (calculateGeohash lat lng p).length +
        (geohashLoop lat lng (5 * p) geohashInit).bit = 5 * p := by
      simpa [calculateGeohash, geohashInit] using tl
    omega
  · intro lat' lng' h1 h2
    rw [h1, h2]

/-- C9 witness: the theorem instantiated at latitude 0, longitude 0,
precision 6. -/
theorem C9_geohash_witness :
    (-90 ≤ (0 : ℚ) ∧ (0 : ℚ) ≤ 90 ∧ -180 ≤ (0 : ℚ) ∧ (0 : ℚ) ≤ 180 ∧ 0 < 6) ∧
    ((calculateGeohash 0 0 6).length = 6 ∧
      (∀ c ∈ calculateGeohash 0 0 6, c ∈ base32Chars) ∧
      ∀ lat' lng' : ℚ, lat' = 0 → lng' = 0 →
        calculateGeohash lat' lng' 6 = calculateGeohash 0 0 6) :=
  ⟨⟨by norm_num, by norm_num, by norm_num, by norm_num, by norm_num⟩,
    C9_geohash_length_alphabet_deterministic 0 0 6 (by norm_num) (by norm_num)
      (by norm_num) (by norm_num) (by norm_num)⟩

/-! ## Confidence scorer (`api/src/models/index.ts`, `calculateConfidence`) -/

/-- `calculateConfidence(sampleCount, stdDeviation)`: sample confidence
`1 - exp(-sampleCount / 50)` times the variance multiplier
`max(0.3, 1 - stdDeviation / 100)`, rounded to two decimals.
`Math.exp` forces a real-valued model. -/
noncomputable def calculateConfidence (sampleCount : ℕ) (stdDeviation : ℝ) : ℝ :=
  let sampleConfidence := 1 - Real.exp (-(sampleCount : ℝ) / 50)
  let varianceMultiplier := max (3 / 10) (1 - stdDeviation / 100)
  (⌊sampleConfidence * varianceMultiplier * 100 + 1 / 2⌋ : ℤ) / 100

theorem calculateConfidence_eq (n : ℕ) (s : ℝ) :
    calculateConfidence n s =
      (⌊(1 - Real.exp (-(n : ℝ) / 50)) * max (3 / 10) (1 - s / 100) * 100 + 1 / 2⌋ : ℤ) / 100 :=
  rfl

theorem sampleConfidence_nonneg (n : ℕ) : 0 ≤ 1 - Real.exp (-(n : ℝ) / 50) := by
  have h : Real.exp (-(n : ℝ) / 50) ≤ Real.exp 0 := by
    apply Real.exp_le_exp.mpr
    have : (0 : ℝ) ≤ (n : ℝ) / 50 := by positivity
    linarith
  rw [Real.exp_zero] at h
  linarith

theorem sampleConfidence_lt_one (n : ℕ) : 1 - Real.exp (-(n : ℝ) / 50) < 1 := by
  have := Real.exp_pos (-(n : ℝ) / 50)
  linarith

theorem varianceMultiplier_pos (s : ℝ) : (0 : ℝ) < max (3 / 10) (1 - s / 100) :=
  lt_of_lt_of_le (by norm_num) (le_max_left _ _)

theorem exp_twenty_large : (200 : ℝ) ≤ Real.exp 20 := by
  have h4 : (5 : ℝ) ≤ Real.exp 4 := by
    have := Real.add_one_le_exp (4 : ℝ)
    linarith
  have hpow : Real.exp 20 = Real.exp 4 ^ (5 : ℕ) := by
    rw [← Real.exp_nat_mul]
    norm_num
  have : (5 : ℝ) ^ (5 : ℕ) ≤ Real.exp 4 ^ (5 : ℕ) :=
    pow_le_pow_left (by norm_num) h4 5
  rw [hpow]
  calc (200 : ℝ) ≤ 5 ^ (5 : ℕ) := by norm_num
    _ ≤ _ := this

/-- C8: `calculateConfidence` stays within [0, 1], is monotonically
non-decreasing in the sample count for fixed standard deviation, is
non-increasing in the standard deviation for fixed sample count, and
`confidence(0, s) < confidence(1000, 0)` for every standard deviation `s`.
The bound `≤ 1` uses that a standard deviation is non-negative. -/
theorem C8_confidence_properties (n m : ℕ) (s t : ℝ) (hs : 0 ≤ s) :
    (0 ≤ calculateConfidence n s ∧ calculateConfidence n s ≤ 1) ∧
    (n ≤ m → calculateConfidence n s ≤ calculateConfidence m s) ∧
    (s ≤ t → calculateConfidence n t ≤ calculateConfidence n s) ∧
    calculateConfidence 0 s < calculateConfidence 1000 0 := by
  have ha0 : ∀ k : ℕ, 0 ≤ 1 - Real.exp (-(k : ℝ) / 50) := sampleConfidence_nonneg
  have ha1 : ∀ k : ℕ, 1 - Real.exp (-(k : ℝ) / 50) < 1 := sampleConfidence_lt_one
  have hm0 : ∀ u : ℝ, (0 : ℝ) < max (3 / 10) (1 - u / 100) := varianceMultiplier_pos
  have hzero : ∀ u : ℝ, calculateConfidence 0 u = 0 := by
    intro u
    rw [calculateConfidence_eq]
    norm_num [Real.exp_zero]
  have hthousand : calculateConfidence 1000 0 = 1 := by
    rw [calculateConfidence_eq]
    push_cast
    have hmax : max ((3 : ℝ) / 10) (1 - 0 / 100) = 1 := by norm_num
    rw [hmax, mul_one]
    have hexp : Real.exp (-(1000 : ℝ) / 50) ≤ 1 / 200 := by
      have h1 : (-(1000 : ℝ) / 50) = -20 := by norm_num
      rw [h1, Real.exp_neg]
      rw [inv_le_comm₀ (Real.exp_pos 20) (by norm_num)]
      calc (1 / 200 : ℝ)⁻¹ = 200 := by norm_num
        _ ≤ Real.exp 20 := exp_twenty_large
    have hexp0 : 0 < Real.exp (-(1000 : ℝ) / 50) := Real.exp_pos _
    have hfl : ⌊(1 - Real.exp (-(1000 : ℝ) / 50)) * 100 + 1 / 2⌋ = 100 := by
      have hlo : (100 : ℝ) ≤ (1 - Real.exp (-(1000 : ℝ) / 50)) * 100 + 1 / 2 := by
        nlinarith
      have hhi : (1 - Real.exp (-(1000 : ℝ) / 50)) * 100 + 1 / 2 < 101 := by
        nlinarith
      have h1 : (100 : ℤ) ≤ ⌊(1 - Real.exp (-(1000 : ℝ) / 50)) * 100 + 1 / 2⌋ :=
        Int.le_floor.mpr (by exact_mod_cast hlo)
      have h2 : ⌊(1 - Real.exp (-(1000 : ℝ) / 50)) * 100 + 1 / 2⌋ < 101 :=
        Int.floor_lt.mpr (by exact_mod_cast hhi)
      omega
    rw [hfl]
    norm_num
  refine ⟨⟨?_, ?_⟩, ?_, ?_, ?_⟩
  · rw [calculateConfidence_eq]
    have hx : (0 : ℝ) ≤ (1 - Real.exp (-(n : ℝ) / 50)) * max (3 / 10) (1 - s / 100) * 100 + 1 / 2 := by
      have := mul_nonneg (mul_nonneg (ha0 n) (le_of_lt (hm0 s))) (by norm_num : (0:ℝ) ≤ 100)
      linarith
    have := Int.floor_nonneg.mpr hx
    positivity
  · rw [calculateConfidence_eq]
    have hmle : max ((3 : ℝ) / 10) (1 - s / 100) ≤ 1 :=
      max_le (by norm_num) (by linarith)
    have hprod : (1 - Real.exp (-(n : ℝ) / 50)) * max (3 / 10) (1 - s / 100) < 1 := by
      calc (1 - Real.exp (-(n : ℝ) / 50)) * max (3 / 10) (1 - s / 100)
          ≤ (1 - Real.exp (-(n : ℝ) / 50)) * 1 :=
            mul_le_mul_of_nonneg_left hmle (ha0 n)
        _ = 1 - Real.exp (-(n : ℝ) / 50) := mul_one _
        _ < 1 := ha1 n
    have hhi : (1 - Real.exp (-(n : ℝ) / 50)) * max (3 / 10) (1 - s / 100) * 100 + 1 / 2 < 101 := by
      nlinarith
    have h2 : ⌊(1 - Real.exp (-(n : ℝ) / 50)) * max (3 / 10) (1 - s / 100) * 100 + 1 / 2⌋ < 101 :=
      Int.floor_lt.mpr (by exact_mod_cast hhi)
    have h3 : ⌊(1 - Real.exp (-(n : ℝ) / 50)) * max (3 / 10) (1 - s / 100) * 100 + 1 / 2⌋ ≤ 100 := by
      omega
    have h4 : ((⌊(1 - Real.exp (-(n : ℝ) / 50)) * max (3 / 10) (1 - s / 100) * 100 + 1 / 2⌋ : ℤ) : ℝ) ≤ 100 := by
      exact_mod_cast h3
    linarith
  · intro hnm
    rw [calculateConfidence_eq, calculateConfidence_eq]
    have haexp : Real.exp (-(m : ℝ) / 50) ≤ Real.exp (-(n : ℝ) / 50) := by
      apply Real.exp_le_exp.mpr
      have : (n : ℝ) ≤ (m : ℝ) := by exact_mod_cast hnm
      linarith
    have hamono : 1 - Real.exp (-(n : ℝ) / 50) ≤ 1 - Real.exp (-(m : ℝ) / 50) := by linarith
    have hpm : (1 - Real.exp (-(n : ℝ) / 50)) * max (3 / 10) (1 - s / 100)
        ≤ (1 - Real.exp (-(m : ℝ) / 50)) * max (3 / 10) (1 - s / 100) :=
      mul_le_mul_of_nonneg_right hamono (le_of_lt (hm0 s))
    have hfl : ⌊(1 - Real.exp (-(n : ℝ) / 50)) * max (3 / 10) (1 - s / 100) * 100 + 1 / 2⌋
        ≤ ⌊(1 - Real.exp (-(m : ℝ) / 50)) * max (3 / 10) (1 - s / 100) * 100 + 1 / 2⌋ := by
      apply Int.floor_mono
      nlinarith
    have : ((⌊(1 - Real.exp (-(n : ℝ) / 50)) * max (3 / 10) (1 - s / 100) * 100 + 1 / 2⌋ : ℤ) : ℝ)
        ≤ ((⌊(1 - Real.exp (-(m : ℝ) / 50)) * max (3 / 10) (1 - s / 100) * 100 + 1 / 2⌋ : ℤ) : ℝ) := by
      exact_mod_cast hfl
    linarith
  · intro hst
    rw [calculateConfidence_eq, calculateConfidence_eq]
    have hmm : max ((3 : ℝ) / 10) (1 - t / 100) ≤ max ((3 : ℝ) / 10) (1 - s / 100) :=
      max_le_max le_rfl (by linarith)
    have hpm : (1 - Real.exp (-(n : ℝ) / 50)) * max (3 / 10) (1 - t / 100)
        ≤ (1 - Real.exp (-(n : ℝ) / 50)) * max (3 / 10) (1 - s / 100) :=
      mul_le_mul_of_nonneg_left hmm (ha0 n)
    have hfl : ⌊(1 - Real.exp (-(n : ℝ) / 50)) * max (3 / 10) (1 - t / 100) * 100 + 1 / 2⌋
        ≤ ⌊(1 - Real.exp (-(n : ℝ) / 50)) * max (3 / 10) (1 - s / 100) * 100 + 1 / 2⌋ := by
      apply Int.floor_mono
      nlinarith
    have : ((⌊(1 - Real.exp (-(n : ℝ) / 50)) * max (3 / 10) (1 - t / 100) * 100 + 1 / 2⌋ : ℤ) : ℝ)
        ≤ ((⌊(1 - Real.exp (-(n : ℝ) / 50)) * max (3 / 10) (1 - s / 100) * 100 + 1 / 2⌋ : ℤ) : ℝ) := by
      exact_mod_cast hfl
    linarith
  · rw [hzero s, hthousand]
    norm_num

/-- C8 witness: the theorem instantiated at sample counts 1 and 2 and
standard deviations 0 and 1. -/
theorem C8_confidence_witness :
    (0 : ℝ) ≤ 0 ∧
    ((0 ≤ calculateConfidence 1 0 ∧ calculateConfidence 1 0 ≤ 1) ∧
      (1 ≤ 2 → calculateConfidence 1 0 ≤ calculateConfidence 2 0) ∧
      ((0 : ℝ) ≤ 1 → calculateConfidence 1 1 ≤ calculateConfidence 1 0) ∧
      calculateConfidence 0 0 < calculateConfidence 1000 0) :=
  ⟨le_refl 0, C8_confidence_properties 1 2 0 1 (le_refl 0)⟩

/-! ## Physics consumption model
(`src/services/prediction/energyPrediction.ts`) -/

inductive WeatherType where
  | clear | cloudy | rain | heavy_rain | fog | hot | cold
deriving DecidableEq

structure WeatherConditions where
  temperature : ℚ
  humidity : ℚ
  windSpeed : ℚ
  windDirection : ℚ
  precipitation : ℚ
  condition : WeatherType
deriving DecidableEq

inductive TrafficDensity where
  | free_flow | light | moderate | heavy | congested
deriving DecidableEq

structure TrafficConditions where
  density : TrafficDensity
  averageSpeed : ℚ
  stopStartFrequency : ℚ
deriving DecidableEq

/-- Route scalars read by `predictTripEnergy`.  The coordinate-level
fields (origin, waypoints, segments, polyline) feed only the generated
chart-point arrays (`elevationProfile`, `rangeAtPoints`), which are
presentational and not modelled. -/
structure Route where
  id : String
  name : String
  totalDistance : ℚ
  totalElevationGain : ℚ
  totalElevationLoss : ℚ
  estimatedDuration : ℚ
deriving DecidableEq

structure ConsumptionBreakdown where
  baseConsumption : ℚ
  elevationCost : ℚ
  temperatureCost : ℚ
  speedCost : ℚ
  trafficCost : ℚ
  hvacCost : ℚ
  auxiliaryCost : ℚ
  regenRecovery : ℚ
  totalConsumption : ℚ
deriving DecidableEq

/-- Prediction output.  The echoed `route`, `weather` and `traffic`
fields and the presentational chart arrays are not modelled. -/
structure TripPrediction where
  startSoC : ℚ
  predictedEndSoC : ℤ
  predictedRange : ℤ
  energyConsumption : ℚ
  consumptionPerKm : ℚ
  canComplete : Bool
  marginOfSafety : ℚ
  breakdown : ConsumptionBreakdown

def GRAVITY : ℚ := 981 / 100

def NEXON_MASS_BASE : ℚ := 1560

def TEMP_EFFICIENCY_very_cold : ℚ := 7 / 10
def TEMP_EFFICIENCY_cold : ℚ := 85 / 100
def TEMP_EFFICIENCY_optimal : ℚ := 1
def TEMP_EFFICIENCY_hot : ℚ := 92 / 100
def TEMP_EFFICIENCY_very_hot : ℚ := 85 / 100

def HVAC_POWER : HvacMode → ℚ
  | .cooling => 5 / 2
  | .heating => 4
  | .off => 0

def TRAFFIC_CONSUMPTION_FACTOR : TrafficDensity → ℚ
  | .free_flow => 1
  | .light => 105 / 100
  | .moderate => 112 / 100
  | .heavy => 125 / 100
  | .congested => 140 / 100

def getTemperatureEfficiency (tempC : ℚ) : ℚ :=
  if tempC < 0 then TEMP_EFFICIENCY_very_cold
  else if tempC < 15 then TEMP_EFFICIENCY_cold
  else if tempC ≤ 30 then TEMP_EFFICIENCY_optimal
  else if tempC ≤ 40 then TEMP_EFFICIENCY_hot
  else TEMP_EFFICIENCY_very_hot

/-- `calculateElevationEnergy`: uphill energy and regen-limited downhill
recovery, both `mass * g * elevation / 3600` (the source comments both as
watt-hours). -/
def calculateElevationEnergy (elevationGainM elevationLossM vehicleMassKg regenEfficiency : ℚ) :
    ℚ × ℚ :=
  (vehicleMassKg * GRAVITY * elevationGainM / 3600,
   vehicleMassKg * GRAVITY * elevationLossM / 3600 * regenEfficiency)

def getSpeedConsumptionFactor (avgSpeedKmh : ℚ) : ℚ :=
  if avgSpeedKmh ≤ 30 then 115 / 100
  else if avgSpeedKmh ≤ 50 then 1
  else if avgSpeedKmh ≤ 70 then 1
  else if avgSpeedKmh ≤ 90 then 112 / 100
  else if avgSpeedKmh ≤ 110 then 128 / 100
  else if avgSpeedKmh ≤ 130 then 145 / 100
  else 160 / 100

/-- `calculateHeadwind`: simplified to half the wind speed. -/
def calculateHeadwind (travelSpeedKmh : ℚ) (weather : WeatherConditions) : ℚ :=
  weather.windSpeed * (1 / 2)

def durationHours (route : Route) : ℚ := route.estimatedDuration / 60

/-- `traffic?.averageSpeed || distanceKm / durationHours`: the JavaScript
falsy fallback also fires when `averageSpeed` is 0. -/
def avgSpeedKmh (route : Route) (traffic : Option TrafficConditions) : ℚ :=
  match traffic with
  | some t =>
      if t.averageSpeed = 0 then route.totalDistance / durationHours route
      else t.averageSpeed
  | none => route.totalDistance / durationHours route

def baseConsumptionWh (route : Route) (vehicle : VehicleState) : ℚ :=
  vehicle.variant.baseConsumption * route.totalDistance

def totalMassKg (vehicle : VehicleState) : ℚ := NEXON_MASS_BASE + vehicle.payload

/-- The source multiplies the uphill term of `calculateElevationEnergy`
by 1000 before reporting it (its comment reads `Convert to Wh`). -/
def elevationCostWh (route : Route) (vehicle : VehicleState) : ℚ :=
  (calculateElevationEnergy route.totalElevationGain route.totalElevationLoss
      (totalMassKg vehicle) vehicle.regenLevel.recoveryEfficiency).1 * 1000

def regenRecoveryWh (route : Route) (vehicle : VehicleState) : ℚ :=
  (calculateElevationEnergy route.totalElevationGain route.totalElevationLoss
      (totalMassKg vehicle) vehicle.regenLevel.recoveryEfficiency).2 * 1000

/-- `weather?.temperature ?? 25` (nullish coalescing, not falsy fallback). -/
def ambientTemp (weather : Option WeatherConditions) : ℚ :=
  match weather with
  | some w => w.temperature
  | none => 25

def tempCostWh (route : Route) (vehicle : VehicleState)
    (weather : Option WeatherConditions) : ℚ :=
  baseConsumptionWh route vehicle * (1 - getTemperatureEfficiency (ambientTemp weather))

def speedCostWh (route : Route) (vehicle : VehicleState)
    (traffic : Option TrafficConditions) : ℚ :=
  baseConsumptionWh route vehicle * (getSpeedConsumptionFactor (avgSpeedKmh route traffic) - 1)

def trafficFactor (traffic : Option TrafficConditions) : ℚ :=
  match traffic with
  | some t => TRAFFIC_CONSUMPTION_FACTOR t.density
  | none => 1

def trafficCostWh (route : Route) (vehicle : VehicleState)
    (traffic : Option TrafficConditions) : ℚ :=
  baseConsumptionWh route vehicle * (trafficFactor traffic - 1)

def hvacCostWh (route : Route) (vehicle : VehicleState) : ℚ :=
  (if vehicle.hvacOn then HVAC_POWER vehicle.hvacMode else 0) * durationHours route * 1000

def auxiliaryCostWh (route : Route) : ℚ := 15 / 100 * durationHours route * 1000

def headwind (route : Route) (vehicle : VehicleState)
    (weather : Option WeatherConditions) (traffic : Option TrafficConditions) : ℚ :=
  match weather with
  | some w => calculateHeadwind (avgSpeedKmh route traffic) w
  | none => 0

def windAdjustmentWh (route : Route) (vehicle : VehicleState)
    (weather : Option WeatherConditions) (traffic : Option TrafficConditions) : ℚ :=
  if 10 < headwind route vehicle weather traffic then
    baseConsumptionWh route vehicle * (8 / 100) *
      (headwind route vehicle weather traffic / 30)
  else 0

def totalConsumptionWh (route : Route) (vehicle : VehicleState)
    (weather : Option WeatherConditions) (traffic : Option TrafficConditions) : ℚ :=
  baseConsumptionWh route vehicle +
    elevationCostWh route vehicle +
    tempCostWh route vehicle weather +
    speedCostWh route vehicle traffic +
    trafficCostWh route vehicle traffic +
    hvacCostWh route vehicle +
    auxiliaryCostWh route +
    windAdjustmentWh route vehicle weather traffic -
    regenRecoveryWh route vehicle

/-- The per-kilometer normalization `totalConsumptionWh / distanceKm` is
performed unconditionally; in the source a zero distance makes this a
JavaScript division by zero (an Infinity or NaN result, not an exception). -/
def consumptionPerKm (route : Route) (vehicle : VehicleState)
    (weather : Option WeatherConditions) (traffic : Option TrafficConditions) : ℚ :=
  totalConsumptionWh route vehicle weather traffic / route.totalDistance

def usableBatteryKwh (vehicle : VehicleState) : ℚ :=
  vehicle.variant.batteryCapacity * (vehicle.batteryHealth / 100)

def endSoCPercent (route : Route) (vehicle : VehicleState)
    (weather : Option WeatherConditions) (traffic : Option TrafficConditions) : ℚ :=
  max 0 (vehicle.currentSoC -
    totalConsumptionWh route vehicle weather traffic / 1000 / usableBatteryKwh vehicle * 100)

def remainingRange (route : Route) (vehicle : VehicleState)
    (weather : Option WeatherConditions) (traffic : Option TrafficConditions) : ℚ :=
  max 0 ((getAvailableEnergy vehicle - totalConsumptionWh route vehicle weather traffic / 1000) /
    (consumptionPerKm route vehicle weather traffic / 1000))

/-- `predictTripEnergy(route, vehicle, weather, traffic)`. -/
def predictTripEnergy (route : Route) (vehicle : VehicleState)
    (weather : Option WeatherConditions) (traffic : Option TrafficConditions) :
    TripPrediction :=
  { startSoC := vehicle.currentSoC
    predictedEndSoC := jsRound (endSoCPercent route vehicle weather traffic)
    predictedRange := jsRound (remainingRange route vehicle weather traffic)
    energyConsumption := totalConsumptionWh route vehicle weather traffic / 1000
    consumptionPerKm := consumptionPerKm route vehicle weather traffic
    canComplete := decide (5 ≤ endSoCPercent route vehicle weather traffic)
    marginOfSafety := remainingRange route vehicle weather traffic
    breakdown :=
      { baseConsumption := baseConsumptionWh route vehicle
        elevationCost := elevationCostWh route vehicle
        temperatureCost := tempCostWh route vehicle weather
        speedCost := speedCostWh route vehicle traffic
        trafficCost := trafficCostWh route vehicle traffic
        hvacCost := hvacCostWh route vehicle
        auxiliaryCost := auxiliaryCostWh route
        regenRecovery := regenRecoveryWh route vehicle
        totalConsumption := totalConsumptionWh route vehicle weather traffic } }

/-! ## Claim theorems: C3, C4, C5 (physics model) -/

def C3route : Route :=
  { id := "r3", name := "hill", totalDistance := 10,
    totalElevationGain := 100, totalElevationLoss := 100, estimatedDuration := 60 }

def C3vehicle : VehicleState := { DEFAULT_VEHICLE_STATE with payload := 0 }

/-- C3: the code evaluated at its failing input.  For a 100 m climb and
100 m descent at vehicle mass 1560 kg (base mass, zero payload) and regen
efficiency 0.18, the claimed formulas give 425.1 Wh uphill and 76.518 Wh
recovered, but the breakdown reports 425100 and 76518: the source multiplies
the already-Wh results of `calculateElevationEnergy` by 1000 (the comment on
that line reads `Convert to Wh`, contradicting the `(Wh)` comment inside
`calculateElevationEnergy` itself). -/
theorem C3_elevation_cost_scaled_by_1000 :
    (predictTripEnergy C3route C3vehicle none none).breakdown.elevationCost = 425100 ∧
    (predictTripEnergy C3route C3vehicle none none).breakdown.regenRecovery = 76518 ∧
    totalMassKg C3vehicle * GRAVITY * C3route.totalElevationGain / 3600 = 4251 / 10 ∧
    totalMassKg C3vehicle * GRAVITY * C3route.totalElevationLoss / 3600 *
      C3vehicle.regenLevel.recoveryEfficiency = 76518 / 1000 := by
  refine ⟨?_, ?_, ?_, ?_⟩ <;>
    norm_num [predictTripEnergy, elevationCostWh, regenRecoveryWh,
      calculateElevationEnergy, totalMassKg, NEXON_MASS_BASE, GRAVITY,
      C3route, C3vehicle, DEFAULT_VEHICLE_STATE]

def C4route : Route :=
  { id := "r4", name := "descent", totalDistance := 1,
    totalElevationGain := 0, totalElevationLoss := 1000, estimatedDuration := 60 }

def C4vehicle : VehicleState :=
  { DEFAULT_VEHICLE_STATE with
    currentSoC := 100
    batteryHealth := 100
    regenLevel := { level := 3, name := "High", recoveryEfficiency := 1 / 4 } }

/-- C4 counterexample: a 1 km route descending 1000 m at regen level 3
yields a negative total consumption (regen recovery exceeds all costs and no
clamp is applied) and, starting from 100% charge, a predicted end state of
charge above 100 (the end SoC is clamped at 0 from below but not at 100 from
above). -/
theorem C4_counterexample :
    (predictTripEnergy C4route C4vehicle none none).breakdown.totalConsumption < 0 ∧
    100 < (predictTripEnergy C4route C4vehicle none none).predictedEndSoC := by
  constructor
  · norm_num [predictTripEnergy, totalConsumptionWh, baseConsumptionWh,
      elevationCostWh, regenRecoveryWh, calculateElevationEnergy, totalMassKg,
      NEXON_MASS_BASE, GRAVITY, tempCostWh, ambientTemp, getTemperatureEfficiency,
      TEMP_EFFICIENCY_optimal, speedCostWh, avgSpeedKmh, durationHours,
      getSpeedConsumptionFactor, trafficCostWh, trafficFactor, hvacCostWh,
      auxiliaryCostWh, windAdjustmentWh, headwind, C4route, C4vehicle,
      DEFAULT_VEHICLE_STATE, NEXON_EV_LR]
  · norm_num [predictTripEnergy, jsRound, endSoCPercent, usableBatteryKwh,
      totalConsumptionWh, baseConsumptionWh,
      elevationCostWh, regenRecoveryWh, calculateElevationEnergy, totalMassKg,
      NEXON_MASS_BASE, GRAVITY, tempCostWh, ambientTemp, getTemperatureEfficiency,
      TEMP_EFFICIENCY_optimal, speedCostWh, avgSpeedKmh, durationHours,
      getSpeedConsumptionFactor, trafficCostWh, trafficFactor, hvacCostWh,
      auxiliaryCostWh, windAdjustmentWh, headwind, C4route, C4vehicle,
      DEFAULT_VEHICLE_STATE, NEXON_EV_LR]

/-- C4 amended: the end state of charge is clamped below at 0
unconditionally; and provided regen recovery does not exceed the sum of the
additive cost terms, the current SoC is at most 100, and battery capacity
and health are non-negative, the total consumption is non-negative and the
predicted end SoC lies within [0, 100]. -/
theorem C4_total_nonneg_and_soc_bounded (route : Route) (vehicle : VehicleState)
    (weather : Option WeatherConditions) (traffic : Option TrafficConditions)
    (hregen : regenRecoveryWh route vehicle ≤
      baseConsumptionWh route vehicle + elevationCostWh route vehicle +
      tempCostWh route vehicle weather + speedCostWh route vehicle traffic +
      trafficCostWh route vehicle traffic + hvacCostWh route vehicle +
      auxiliaryCostWh route + windAdjustmentWh route vehicle weather traffic)
    (hsoc : vehicle.currentSoC ≤ 100)
    (hcap : 0 ≤ vehicle.variant.batteryCapacity)
    (hhealth : 0 ≤ vehicle.batteryHealth) :
    0 ≤ (predictTripEnergy route vehicle weather traffic).breakdown.totalConsumption ∧
    0 ≤ endSoCPercent route vehicle weather traffic ∧
    endSoCPercent route vehicle weather traffic ≤ 100 := by
  have htot : 0 ≤ totalConsumptionWh route vehicle weather traffic := by
    unfold totalConsumptionWh
    linarith
  refine ⟨htot, le_max_left _ _, ?_⟩
  unfold endSoCPercent
  refine max_le (by norm_num) ?_
  have husable : 0 ≤ usableBatteryKwh vehicle := by
    unfold usableBatteryKwh
    exact mul_nonneg hcap (by linarith)
  have hsub : 0 ≤ totalConsumptionWh route vehicle weather traffic / 1000 /
      usableBatteryKwh vehicle * 100 := by
    apply mul_nonneg _ (by norm_num)
    exact div_nonneg (div_nonneg htot (by norm_num)) husable
  linarith

def C4wroute : Route :=
  { id := "r4w", name := "flat", totalDistance := 100,
    totalElevationGain := 0, totalElevationLoss := 0, estimatedDuration := 60 }

/-- C4 witness: the amended theorem instantiated on a flat 100 km route
with the default vehicle state. -/
theorem C4_amended_witness :
    (regenRecoveryWh C4wroute DEFAULT_VEHICLE_STATE ≤
      baseConsumptionWh C4wroute DEFAULT_VEHICLE_STATE +
      elevationCostWh C4wroute DEFAULT_VEHICLE_STATE +
      tempCostWh C4wroute DEFAULT_VEHICLE_STATE none +
      speedCostWh C4wroute DEFAULT_VEHICLE_STATE none +
      trafficCostWh C4wroute DEFAULT_VEHICLE_STATE none +
      hvacCostWh C4wroute DEFAULT_VEHICLE_STATE +
      auxiliaryCostWh C4wroute +
      windAdjustmentWh C4wroute DEFAULT_VEHICLE_STATE none none ∧
      DEFAULT_VEHICLE_STATE.currentSoC ≤ 100 ∧
      0 ≤ DEFAULT_VEHICLE_STATE.variant.batteryCapacity ∧
      0 ≤ DEFAULT_VEHICLE_STATE.batteryHealth) ∧
    (0 ≤ (predictTripEnergy C4wroute DEFAULT_VEHICLE_STATE none none).breakdown.totalConsumption ∧
      0 ≤ endSoCPercent C4wroute DEFAULT_VEHICLE_STATE none none ∧
      endSoCPercent C4wroute DEFAULT_VEHICLE_STATE none none ≤ 100) := by
  have h1 : regenRecoveryWh C4wroute DEFAULT_VEHICLE_STATE ≤
      baseConsumptionWh C4wroute DEFAULT_VEHICLE_STATE +
      elevationCostWh C4wroute DEFAULT_VEHICLE_STATE +
      tempCostWh C4wroute DEFAULT_VEHICLE_STATE none +
      speedCostWh C4wroute DEFAULT_VEHICLE_STATE none +
      trafficCostWh C4wroute DEFAULT_VEHICLE_STATE none +
      hvacCostWh C4wroute DEFAULT_VEHICLE_STATE +
      auxiliaryCostWh C4wroute +
      windAdjustmentWh C4wroute DEFAULT_VEHICLE_STATE none none := by
    norm_num [regenRecoveryWh, baseConsumptionWh, elevationCostWh, tempCostWh,
      speedCostWh, trafficCostWh, hvacCostWh, auxiliaryCostWh, windAdjustmentWh,
      calculateElevationEnergy, totalMassKg, NEXON_MASS_BASE, GRAVITY,
      ambientTemp, getTemperatureEfficiency, TEMP_EFFICIENCY_optimal,
      avgSpeedKmh, durationHours, getSpeedConsumptionFactor, trafficFactor,
      headwind, C4wroute, DEFAULT_VEHICLE_STATE, NEXON_EV_LR]
  have h2 : DEFAULT_VEHICLE_STATE.currentSoC ≤ 100 := by norm_num [DEFAULT_VEHICLE_STATE]
  have h3 : 0 ≤ DEFAULT_VEHICLE_STATE.variant.batteryCapacity := by
    norm_num [DEFAULT_VEHICLE_STATE, NEXON_EV_LR]
  have h4 : 0 ≤ DEFAULT_VEHICLE_STATE.batteryHealth := by norm_num [DEFAULT_VEHICLE_STATE]
  exact ⟨⟨h1, h2, h3, h4⟩,
    C4_total_nonneg_and_soc_bounded C4wroute DEFAULT_VEHICLE_STATE none none h1 h2 h3 h4⟩

def C5route : Route :=
  { id := "r5", name := "nullroute", totalDistance := 0,
    totalElevationGain := 0, totalElevationLoss := 0, estimatedDuration := 60 }

/-- C5 counterexample: for a zero-distance route of one hour duration the
prediction does not yield zero consumption — the auxiliary draw
(150 W for one hour) still accrues, so the total is 150 Wh. -/
theorem C5_counterexample :
    (predictTripEnergy C5route DEFAULT_VEHICLE_STATE none none).breakdown.totalConsumption = 150 ∧
    (predictTripEnergy C5route DEFAULT_VEHICLE_STATE none none).breakdown.totalConsumption ≠ 0 := by
  constructor <;>
    norm_num [predictTripEnergy, totalConsumptionWh, baseConsumptionWh,
      elevationCostWh, regenRecoveryWh, calculateElevationEnergy, totalMassKg,
      NEXON_MASS_BASE, GRAVITY, tempCostWh, ambientTemp, getTemperatureEfficiency,
      TEMP_EFFICIENCY_optimal, speedCostWh, avgSpeedKmh, durationHours,
      getSpeedConsumptionFactor, trafficCostWh, trafficFactor, hvacCostWh,
      auxiliaryCostWh, windAdjustmentWh, headwind, C5route,
      DEFAULT_VEHICLE_STATE, NEXON_EV_LR]

/-- C5 amended: a zero-distance route (with zero elevation change) yields
the duration-based HVAC and auxiliary costs, not zero; the per-kilometer
normalization `totalWh / distanceKm` is performed with no guard, which in
the source is a JavaScript division by zero producing a non-finite number. -/
theorem C5_zero_distance_gives_duration_costs (route : Route) (vehicle : VehicleState)
    (weather : Option WeatherConditions) (traffic : Option TrafficConditions)
    (hd : route.totalDistance = 0) (hg : route.totalElevationGain = 0)
    (hl : route.totalElevationLoss = 0) :
    (predictTripEnergy route vehicle weather traffic).breakdown.totalConsumption =
      hvacCostWh route vehicle + auxiliaryCostWh route := by
  show totalConsumptionWh route vehicle weather traffic = _
  unfold totalConsumptionWh baseConsumptionWh elevationCostWh regenRecoveryWh
    tempCostWh speedCostWh trafficCostWh windAdjustmentWh calculateElevationEnergy
  rw [hd, hg, hl]
  simp only [baseConsumptionWh, hd, mul_zero, zero_mul, zero_div, zero_sub,
    zero_add, add_zero, ite_self]
  ring

/-- C5 witness: the amended theorem instantiated on the zero-distance route
and default vehicle. -/
theorem C5_amended_witness :
    (C5route.totalDistance = 0 ∧ C5route.totalElevationGain = 0 ∧
      C5route.totalElevationLoss = 0) ∧
    (predictTripEnergy C5route DEFAULT_VEHICLE_STATE none none).breakdown.totalConsumption =
      hvacCostWh C5route DEFAULT_VEHICLE_STATE + auxiliaryCostWh C5route := by
  refine ⟨⟨rfl, rfl, rfl⟩, ?_⟩
  exact C5_zero_distance_gives_duration_costs C5route DEFAULT_VEHICLE_STATE none none
    rfl rfl rfl

/-! ## Crowd aggregation and trip sync (`api/src/services/cosmosDb.ts`,
`api/src/models/index.ts`)

The Cosmos DB `trips` and `crowdSegments` containers are modelled as
association lists keyed by the document `id`; `item(id, partitionKey).read`
becomes `lookupStore` (the id embeds the partition key, so the id alone
determines the document) and `items.upsert` / `items.create` become
`upsertStore`.  The `segmentHash`, `trafficPatterns`, `byTemperatureRange`
and `byRegenLevel` fields are written once at creation with constant
contents and are never read or updated by the sync pipeline; they are
omitted. -/

inductive ApiRoadType where
  | highway | city | rural
deriving DecidableEq

inductive ApiTrafficLevel where
  | free | light | moderate | heavy
deriving DecidableEq

structure TripSegment where
  startIndex : ℕ
  endIndex : ℕ
  geohash : String
  distance : ℚ
  elevationChange : ℚ
  avgSpeed : ℚ
  whPerKm : ℚ
  roadType : ApiRoadType
  trafficLevel : ApiTrafficLevel

structure TripVehicleState where
  variantId : String
  regenLevel : ℕ
  hvacOn : Bool
  hvacMode : HvacMode
  hvacTemperature : ℚ
  payload : ℚ
  tirePressure : ℚ
  batteryHealth : ℚ

/-- A trip record.  The nested `route`, `weather` and `consumption`
snapshots are persisted opaquely and never read by the sync pipeline;
they are omitted.  The `startTime`/`endTime`/`createdAt` timestamps are
wall-clock values, also omitted. -/
structure Trip where
  id : String
  tripId : String
  userId : String
  distance : ℚ
  energyUsed : ℚ
  startSoC : ℚ
  endSoC : ℚ
  vehicleState : TripVehicleState
  segments : List TripSegment
  synced : Bool

structure VariantStats where
  avgWhPerKm : ℚ
  sampleCount : ℕ

structure AggregatedConsumption where
  avgWhPerKm : ℚ
  minWhPerKm : ℚ
  maxWhPerKm : ℚ
  stdDeviation : ℚ
  byVariant : List (String × VariantStats)

structure CrowdSegment where
  id : String
  geohash : String
  fromGeohash : String
  toGeohash : String
  distance : ℚ
  elevationChange : ℚ
  roadType : ApiRoadType
  aggregatedData : AggregatedConsumption
  sampleCount : ℕ
  confidence : ℝ

def lookupStore {α : Type} (store : List (String × α)) (key : String) : Option α :=
  match store with
  | [] => none
  | (k, v) :: rest => if k = key then some v else lookupStore rest key

def upsertStore {α : Type} (store : List (String × α)) (key : String) (value : α) :
    List (String × α) :=
  match store with
  | [] => [(key, value)]
  | (k, v) :: rest =>
      if k = key then (key, value) :: rest else (k, v) :: upsertStore rest key value

abbrev CrowdStore := List (String × CrowdSegment)

abbrev TripsStore := List (String × Trip)

/-- The document id `updateCrowdSegment` reads and writes:
`segmentId = geohash + "-" + startIndex`. -/
def segmentId (segment : TripSegment) : String :=
  segment.geohash ++ "-" ++ toString segment.startIndex

/-- The new `CrowdSegment` built in the 404 branch of `updateCrowdSegment`:
one sample, average/min/max all the observed value, zero standard
deviation, the variant map seeded with this sample, confidence 0.1. -/
noncomputable def createdCrowdSegment (segment : TripSegment) (trip : Trip) : CrowdSegment :=
  { id := segmentId segment
    geohash := segment.geohash
    fromGeohash := segment.geohash
    toGeohash := segment.geohash
    distance := segment.distance
    elevationChange := segment.elevationChange
    roadType := segment.roadType
    aggregatedData :=
      { avgWhPerKm := segment.whPerKm
        minWhPerKm := segment.whPerKm
        maxWhPerKm := segment.whPerKm
        stdDeviation := 0
        byVariant := [(trip.vehicleState.variantId,
          { avgWhPerKm := segment.whPerKm, sampleCount := 1 })] }
    sampleCount := 1
    confidence := 1 / 10 }

/-- The in-place update branch of `updateCrowdSegment`: incremental mean
rounded to two decimals, min/max by comparison, incremented sample count,
confidence recomputed from the new count and the existing (never-updated)
standard deviation, and the per-variant running average updated with the
same incremental formula scoped to the variant's own count. -/
noncomputable def updatedCrowdSegment (existing : CrowdSegment) (segment : TripSegment)
    (trip : Trip) : CrowdSegment :=
  let newCount := existing.sampleCount + 1
  let variantId := trip.vehicleState.variantId
  let newAvg := existing.aggregatedData.avgWhPerKm +
    (segment.whPerKm - existing.aggregatedData.avgWhPerKm) / newCount
  let newByVariant :=
    match lookupStore existing.aggregatedData.byVariant variantId with
    | none =>
        upsertStore existing.aggregatedData.byVariant variantId
          { avgWhPerKm := segment.whPerKm, sampleCount := 1 }
    | some variantData =>
        upsertStore existing.aggregatedData.byVariant variantId
          { avgWhPerKm := variantData.avgWhPerKm +
              (segment.whPerKm - variantData.avgWhPerKm) / (variantData.sampleCount + 1)
            sampleCount := variantData.sampleCount + 1 }
  { existing with
    aggregatedData :=
      { existing.aggregatedData with
        avgWhPerKm := round2 newAvg
        minWhPerKm := min existing.aggregatedData.minWhPerKm segment.whPerKm
        maxWhPerKm := max existing.aggregatedData.maxWhPerKm segment.whPerKm
        byVariant := newByVariant }
    sampleCount := newCount
    confidence := calculateConfidence newCount (existing.aggregatedData.stdDeviation : ℝ) }

/-- `updateCrowdSegment(segment, trip)`: read the document keyed by
`segmentId`; if present apply the incremental update and upsert, if absent
(404) create the seed document.  Returns the new store and the
`(created, updated)` flags. -/
noncomputable def updateCrowdSegment (store : CrowdStore) (segment : TripSegment)
    (trip : Trip) : CrowdStore × Bool × Bool :=
  match lookupStore store (segmentId segment) with
  | some existing =>
      (upsertStore store (segmentId segment) (updatedCrowdSegment existing segment trip),
        false, true)
  | none =>
      (upsertStore store (segmentId segment) (createdCrowdSegment segment trip),
        true, false)

/-- `saveTrip`: idempotent upsert keyed by the trip document id, marking
the trip `synced`. -/
def saveTrip (store : TripsStore) (trip : Trip) : TripsStore :=
  upsertStore store trip.id { trip with synced := true }

structure SyncTripsRequest where
  userId : String
  trips : List Trip

/-- The running state of the `syncTrips` loop: both containers plus the
three response counters. -/
structure SyncState where
  tripsStore : TripsStore
  crowdStore : CrowdStore
  syncedCount : ℕ
  newSegmentsCreated : ℕ
  crowdUpdatesApplied : ℕ

/-- The inner `for (const segment of trip.segments)` loop. -/
noncomputable def ingestSegments (trip : Trip) :
    List TripSegment → CrowdStore × ℕ × ℕ → CrowdStore × ℕ × ℕ
  | [], acc => acc
  | s :: rest, acc =>
      let r := updateCrowdSegment acc.1 s trip
      ingestSegments trip rest
        (r.1, acc.2.1 + (if r.2.1 then 1 else 0), acc.2.2 + (if r.2.2 then 1 else 0))

/-- The outer `for (const trip of request.trips)` loop of `syncTrips`:
save the trip (with the request's userId), increment `syncedCount`
unconditionally, and when the user shares anonymous data feed every
segment of the trip into `updateCrowdSegment`. -/
noncomputable def syncTripsLoop (share : Bool) (userId : String) :
    List Trip → SyncState → SyncState
  | [], st => st
  | trip :: rest, st =>
      let st1 : SyncState :=
        { st with
          tripsStore := saveTrip st.tripsStore { trip with userId := userId }
          syncedCount := st.syncedCount + 1 }
      let st2 : SyncState :=
        if share then
          let r := ingestSegments trip trip.segments (st1.crowdStore, 0, 0)
          { st1 with
            crowdStore := r.1
            newSegmentsCreated := st1.newSegmentsCreated + r.2.1
            crowdUpdatesApplied := st1.crowdUpdatesApplied + r.2.2 }
        else st1
      syncTripsLoop share userId rest st2

/-- `syncTrips(request)`.  The `share` flag is the
`preferences.shareAnonymousData` of the user profile that
`getOrCreateUser(request.userId)` returns (constant across the loop). -/
noncomputable def syncTrips (share : Bool) (tripsStore : TripsStore)
    (crowdStore : CrowdStore) (request : SyncTripsRequest) : SyncState :=
  syncTripsLoop share request.userId request.trips
    { tripsStore := tripsStore, crowdStore := crowdStore,
      syncedCount := 0, newSegmentsCreated := 0, crowdUpdatesApplied := 0 }

theorem lookupStore_upsert_self {α : Type} (store : List (String × α)) (key : String)
    (value : α) : lookupStore (upsertStore store key value) key = some value := by
  induction store with
  | nil => simp [upsertStore, lookupStore]
  | cons hd tl ih =>
    obtain ⟨k, v⟩ := hd
    by_cases h : k = key
    · simp [upsertStore, lookupStore, h]
    · simp [upsertStore, lookupStore, h, ih]

theorem lookupStore_upsert_other {α : Type} (store : List (String × α))
    (key other : String) (value : α) (h : key ≠ other) :
    lookupStore (upsertStore store key value) other = lookupStore store other := by
  induction store with
  | nil => simp [upsertStore, lookupStore, h]
  | cons hd tl ih =>
    obtain ⟨k, v⟩ := hd
    by_cases hk : k = key
    · subst hk
      simp [upsertStore, lookupStore, h]
    · simp [upsertStore, lookupStore, hk, ih]

theorem updateCrowdSegment_absent (store : CrowdStore) (segment : TripSegment)
    (trip : Trip) (h : lookupStore store (segmentId segment) = none) :
    (updateCrowdSegment store segment trip).2 = (true, false) ∧
    lookupStore (updateCrowdSegment store segment trip).1 (segmentId segment) =
      some (createdCrowdSegment segment trip) ∧
    ∀ k, k ≠ segmentId segment →
      lookupStore (updateCrowdSegment store segment trip).1 k = lookupStore store k := by
  unfold updateCrowdSegment
  rw [h]
  exact ⟨rfl, lookupStore_upsert_self _ _ _,
    fun k hk => lookupStore_upsert_other _ _ _ _ (Ne.symm hk)⟩

theorem updateCrowdSegment_present (store : CrowdStore) (segment : TripSegment)
    (trip : Trip) (existing : CrowdSegment)
    (h : lookupStore store (segmentId segment) = some existing) :
    (updateCrowdSegment store segment trip).2 = (false, true) ∧
    lookupStore (updateCrowdSegment store segment trip).1 (segmentId segment) =
      some (updatedCrowdSegment existing segment trip) ∧
    ∀ k, k ≠ segmentId segment →
      lookupStore (updateCrowdSegment store segment trip).1 k = lookupStore store k := by
  unfold updateCrowdSegment
  rw [h]
  exact ⟨rfl, lookupStore_upsert_self _ _ _,
    fun k hk => lookupStore_upsert_other _ _ _ _ (Ne.symm hk)⟩

theorem updatedCrowdSegment_sampleCount (existing : CrowdSegment)
    (segment : TripSegment) (trip : Trip) :
    (updatedCrowdSegment existing segment trip).sampleCount = existing.sampleCount + 1 :=
  rfl

theorem updatedCrowdSegment_avg (existing : CrowdSegment)
    (segment : TripSegment) (trip : Trip) :
    (updatedCrowdSegment existing segment trip).aggregatedData.avgWhPerKm =
      round2 (existing.aggregatedData.avgWhPerKm +
        (segment.whPerKm - existing.aggregatedData.avgWhPerKm) /
          ((existing.sampleCount + 1 : ℕ) : ℚ)) :=
  rfl

theorem createdCrowdSegment_sampleCount (segment : TripSegment) (trip : Trip) :
    (createdCrowdSegment segment trip).sampleCount = 1 :=
  rfl

theorem createdCrowdSegment_avg (segment : TripSegment) (trip : Trip) :
    (createdCrowdSegment segment trip).aggregatedData.avgWhPerKm = segment.whPerKm :=
  rfl

/-! ## Claim theorems: C1 (incremental mean), C2 (sync idempotence),
C6 (one record per cell) -/

/-- The key of the crowd document for cell `g` and segment start index `i`. -/
def segKey (g : String) (i : ℕ) : String := g ++ "-" ++ toString i

/-- A trip segment carrying one observed Wh/km sample for cell `g` at
start index `i` (the remaining fields are arbitrary concrete values; the
aggregation only reads `geohash`, `startIndex` and `whPerKm`). -/
def mkSegment (g : String) (i : ℕ) (x : ℚ) : TripSegment :=
  { startIndex := i, endIndex := i + 1, geohash := g, distance := 1,
    elevationChange := 0, avgSpeed := 50, whPerKm := x,
    roadType := .city, trafficLevel := .free }

/-- A concrete trip used to drive the aggregation in concrete scenarios. -/
def sampleTrip : Trip :=
  { id := "t1", tripId := "t1", userId := "u1", distance := 10,
    energyUsed := 13 / 10, startSoC := 80, endSoC := 75,
    vehicleState :=
      { variantId := "nexon_ev_mr", regenLevel := 2, hvacOn := false,
        hvacMode := .off, hvacTemperature := 24, payload := 75,
        tirePressure := 33, batteryHealth := 98 },
    segments := [], synced := false }

/-- Feeding the observed values `xs` one at a time into
`updateCrowdSegment` for cell `g`, start index `i`. -/
noncomputable def ingestValues (g : String) (i : ℕ) (trip : Trip) (xs : List ℚ)
    (store : CrowdStore) : CrowdStore :=
  xs.foldl (fun st x => (updateCrowdSegment st (mkSegment g i x) trip).1) store

theorem round2_error (q : ℚ) : |round2 q - q| ≤ 1 / 200 := by
  unfold round2 jsRound
  have h1 : ((⌊q * 100 + 1 / 2⌋ : ℤ) : ℚ) ≤ q * 100 + 1 / 2 := Int.floor_le _
  have h2 : q * 100 + 1 / 2 - 1 < ((⌊q * 100 + 1 / 2⌋ : ℤ) : ℚ) := Int.sub_one_lt_floor _
  rw [abs_le]
  constructor <;> [linarith; linarith]

/-- Error propagation of the rounded incremental mean: starting from a
stored record with `n ≥ 1` samples whose stored average is within `e` of a
reference mean `μ`, after ingesting the further samples `xs` the stored
average is within `e + |xs| / 200` of the combined mean, and the sample
count grows by `|xs|`. -/
theorem ingestValues_error (g : String) (i : ℕ) (trip : Trip) :
    ∀ (xs : List ℚ) (store : CrowdStore) (seg : CrowdSegment) (n : ℕ) (μ e : ℚ),
    lookupStore store (segKey g i) = some seg →
    seg.sampleCount = n → 1 ≤ n →
    |seg.aggregatedData.avgWhPerKm - μ| ≤ e →
    ∃ seg', lookupStore (ingestValues g i trip xs store) (segKey g i) = some seg' ∧
      seg'.sampleCount = n + xs.length ∧
      |seg'.aggregatedData.avgWhPerKm -
          ((n : ℚ) * μ + xs.sum) / ((n : ℚ) + xs.length)| ≤
        e + xs.length / 200 := by
  intro xs
  induction xs with
  | nil =>
    intro store seg n μ e hlook hcount hn herr
    refine ⟨seg, hlook, by simpa using hcount, ?_⟩
    have hn0 : (n : ℚ) ≠ 0 := by
      have : (1 : ℚ) ≤ (n : ℚ) := by exact_mod_cast hn
      linarith
    have hmean : ((n : ℚ) * μ + ([] : List ℚ).sum) / ((n : ℚ) + ([] : List ℚ).length) = μ := by
      simp only [List.sum_nil, List.length_nil, Nat.cast_zero, add_zero]
      rw [mul_comm, mul_div_assoc, div_self hn0, mul_one]
    rw [hmean]
    simpa using herr
  | cons x rest ih =>
    intro store seg n μ e hlook hcount hn herr
    obtain ⟨_, hl1, _⟩ :=
      updateCrowdSegment_present store (mkSegment g i x) trip seg hlook
    set store1 := (updateCrowdSegment store (mkSegment g i x) trip).1 with hstore1
    set seg1 := updatedCrowdSegment seg (mkSegment g i x) trip with hseg1
    have hcount1 : seg1.sampleCount = n + 1 := by
      rw [hseg1, updatedCrowdSegment_sampleCount, hcount]
    have hnq : (0 : ℚ) < (n : ℚ) + 1 := by positivity
    have havg1 : seg1.aggregatedData.avgWhPerKm =
        round2 (seg.aggregatedData.avgWhPerKm +
          (x - seg.aggregatedData.avgWhPerKm) / ((n : ℚ) + 1)) := by
      rw [hseg1, updatedCrowdSegment_avg, hcount]
      push_cast
      rfl
    have herr1 : |seg1.aggregatedData.avgWhPerKm -
        ((n : ℚ) * μ + x) / ((n : ℚ) + 1)| ≤ e + 1 / 200 := by
      set a := seg.aggregatedData.avgWhPerKm with ha
      set p := a + (x - a) / ((n : ℚ) + 1) with hp
      have hdiff : p - ((n : ℚ) * μ + x) / ((n : ℚ) + 1) =
          ((n : ℚ) / ((n : ℚ) + 1)) * (a - μ) := by
        rw [hp]
        field_simp
        ring
      have hfrac0 : (0 : ℚ) ≤ (n : ℚ) / ((n : ℚ) + 1) := by positivity
      have hfrac1 : (n : ℚ) / ((n : ℚ) + 1) ≤ 1 := by
        rw [div_le_one hnq]
        linarith
      have hmid : |p - ((n : ℚ) * μ + x) / ((n : ℚ) + 1)| ≤ e := by
        rw [hdiff, abs_mul, abs_of_nonneg hfrac0]
        calc (n : ℚ) / ((n : ℚ) + 1) * |a - μ| ≤ 1 * |a - μ| :=
              mul_le_mul_of_nonneg_right hfrac1 (abs_nonneg _)
          _ = |a - μ| := one_mul _
          _ ≤ e := herr
      calc |seg1.aggregatedData.avgWhPerKm - ((n : ℚ) * μ + x) / ((n : ℚ) + 1)|
          = |(round2 p - p) + (p - ((n : ℚ) * μ + x) / ((n : ℚ) + 1))| := by
            rw [havg1]; ring_nf
        _ ≤ |round2 p - p| + |p - ((n : ℚ) * μ + x) / ((n : ℚ) + 1)| := abs_add _ _
        _ ≤ 1 / 200 + e := add_le_add (round2_error p) hmid
        _ = e + 1 / 200 := by ring
    obtain ⟨seg', hl', hc', he'⟩ :=
      ih store1 seg1 (n + 1) (((n : ℚ) * μ + x) / ((n : ℚ) + 1)) (e + 1 / 200)
        hl1 hcount1 (by omega) herr1
    refine ⟨seg', hl', ?_, ?_⟩
    · simp only [List.length_cons]
      omega
    · push_cast at he'
      have h2 : ((n : ℚ) + 1) * (((n : ℚ) * μ + x) / ((n : ℚ) + 1)) = (n : ℚ) * μ + x := by
        field_simp
      rw [h2] at he'
      have hgoalmean : ((n : ℚ) * μ + (x :: rest).sum) / ((n : ℚ) + ((x :: rest).length : ℚ)) =
          ((n : ℚ) * μ + x + rest.sum) / ((n : ℚ) + 1 + (rest.length : ℚ)) := by
        simp only [List.sum_cons, List.length_cons]
        push_cast
        ring_nf
      have hgoalbound : e + ((x :: rest).length : ℚ) / 200 =
          e + 1 / 200 + (rest.length : ℚ) / 200 := by
        simp only [List.length_cons]
        push_cast
        ring
      rw [hgoalmean, hgoalbound]
      exact he'

/-- C1 amended: for a fresh cell, after ingesting the `N` observed values
`xs` one at a time, the stored sample count is `N` and the stored
`avgWhPerKm` is within `0.005 * (N - 1)` of the true mean `sum(xs) / N` —
not within 1e-6, because every update after the first rounds the stored
average to two decimal places (`Math.round(newAvg * 100) / 100`). -/
theorem C1_incremental_mean_within_rounding (g : String) (i : ℕ) (trip : Trip)
    (xs : List ℚ) (store : CrowdStore)
    (habs : lookupStore store (segKey g i) = none) (hne : xs ≠ []) :
    ∃ seg, lookupStore (ingestValues g i trip xs store) (segKey g i) = some seg ∧
      seg.sampleCount = xs.length ∧
      |seg.aggregatedData.avgWhPerKm - xs.sum / (xs.length : ℚ)| ≤
        ((xs.length : ℚ) - 1) / 200 := by
  cases xs with
  | nil => exact absurd rfl hne
  | cons x rest =>
    obtain ⟨_, hl1, _⟩ := updateCrowdSegment_absent store (mkSegment g i x) trip habs
    have havg0 : |(createdCrowdSegment (mkSegment g i x) trip).aggregatedData.avgWhPerKm -
        x| ≤ 0 := by
      rw [createdCrowdSegment_avg]
      simp [mkSegment]
    obtain ⟨seg', hl', hc', he'⟩ :=
      ingestValues_error g i trip rest
        ((updateCrowdSegment store (mkSegment g i x) trip).1)
        (createdCrowdSegment (mkSegment g i x) trip) 1 x 0 hl1
        (createdCrowdSegment_sampleCount _ _) le_rfl havg0
    refine ⟨seg', hl', ?_, ?_⟩
    · simp only [List.length_cons]
      omega
    · push_cast at he'
      have hm : ((1 : ℚ) * x + rest.sum) / (1 + (rest.length : ℚ)) =
          (x :: rest).sum / (((x :: rest).length : ℕ) : ℚ) := by
        simp only [List.sum_cons, List.length_cons]
        push_cast
        ring_nf
      have hb : (0 : ℚ) + (rest.length : ℚ) / 200 =
          ((((x :: rest).length : ℕ) : ℚ) - 1) / 200 := by
        simp only [List.length_cons]
        push_cast
        ring
      rw [hm, hb] at he'
      exact he'

/-- C1 witness: the amended theorem instantiated on the values 130 and 140
ingested into an empty store. -/
theorem C1_amended_witness :
    (lookupStore ([] : CrowdStore) (segKey "tdr1y4" 0) = none ∧
      ([130, 140] : List ℚ) ≠ []) ∧
    ∃ seg, lookupStore (ingestValues "tdr1y4" 0 sampleTrip [130, 140] [])
        (segKey "tdr1y4" 0) = some seg ∧
      seg.sampleCount = ([130, 140] : List ℚ).length ∧
      |seg.aggregatedData.avgWhPerKm -
          ([130, 140] : List ℚ).sum / ((([130, 140] : List ℚ).length : ℕ) : ℚ)| ≤
        (((([130, 140] : List ℚ).length : ℕ) : ℚ) - 1) / 200 :=
  ⟨⟨rfl, by simp⟩,
    C1_incremental_mean_within_rounding "tdr1y4" 0 sampleTrip [130, 140] [] rfl (by simp)⟩

/-- C1 counterexample: ingesting the two samples 130 and 130.005 stores the
average 130 (the incremental mean 130.0025 is rounded to two decimals),
which differs from the true mean 130.0025 by 0.0025 — more than the claimed
1e-6 tolerance. -/
theorem C1_counterexample :
    (lookupStore (ingestValues "tdr1y4" 0 sampleTrip [130, 26001 / 200] [])
        (segKey "tdr1y4" 0)).map
      (fun s => (s.sampleCount, s.aggregatedData.avgWhPerKm)) = some (2, 130) ∧
    ¬ |(130 : ℚ) - ((130 : ℚ) + 26001 / 200) / 2| ≤ 1 / 1000000 := by
  constructor
  · have h0 : lookupStore ([] : CrowdStore)
        (segmentId (mkSegment "tdr1y4" 0 130)) = none := rfl
    obtain ⟨_, hl1, _⟩ :=
      updateCrowdSegment_absent [] (mkSegment "tdr1y4" 0 130) sampleTrip h0
    obtain ⟨_, hl2, _⟩ :=
      updateCrowdSegment_present
        ((updateCrowdSegment [] (mkSegment "tdr1y4" 0 130) sampleTrip).1)
        (mkSegment "tdr1y4" 0 (26001 / 200)) sampleTrip
        (createdCrowdSegment (mkSegment "tdr1y4" 0 130) sampleTrip) hl1
    have hl2' : lookupStore
        (ingestValues "tdr1y4" 0 sampleTrip [130, 26001 / 200] [])
        (segKey "tdr1y4" 0) =
      some (updatedCrowdSegment
        (createdCrowdSegment (mkSegment "tdr1y4" 0 130) sampleTrip)
        (mkSegment "tdr1y4" 0 (26001 / 200)) sampleTrip) := hl2
    rw [hl2']
    have hcount : (updatedCrowdSegment
        (createdCrowdSegment (mkSegment "tdr1y4" 0 130) sampleTrip)
        (mkSegment "tdr1y4" 0 (26001 / 200)) sampleTrip).sampleCount = 2 := by
      rw [updatedCrowdSegment_sampleCount, createdCrowdSegment_sampleCount]
    have havg : (updatedCrowdSegment
        (createdCrowdSegment (mkSegment "tdr1y4" 0 130) sampleTrip)
        (mkSegment "tdr1y4" 0 (26001 / 200)) sampleTrip).aggregatedData.avgWhPerKm =
        130 := by
      rw [updatedCrowdSegment_avg, createdCrowdSegment_avg,
        createdCrowdSegment_sampleCount]
      norm_num [mkSegment, round2, jsRound]
    simp [hcount, havg]
  · rw [not_le]
    norm_num
    rw [abs_of_pos] <;> norm_num

/-- C6 counterexample: two segments carry the same geohash but different
start indices.  The second ingest does not update the record created by the
first: it returns `created = true`, the first record keeps `sampleCount = 1`,
and a second record now exists for the same geocell (the document id is
`geohash + "-" + startIndex`, not the geohash alone). -/
theorem C6_counterexample :
    (mkSegment "tdr1y4" 0 100).geohash = (mkSegment "tdr1y4" 1 100).geohash ∧
    (updateCrowdSegment
        (updateCrowdSegment [] (mkSegment "tdr1y4" 0 100) sampleTrip).1
        (mkSegment "tdr1y4" 1 100) sampleTrip).2 = (true, false) ∧
    (lookupStore (updateCrowdSegment
        (updateCrowdSegment [] (mkSegment "tdr1y4" 0 100) sampleTrip).1
        (mkSegment "tdr1y4" 1 100) sampleTrip).1 (segKey "tdr1y4" 0)).map
      (fun s => s.sampleCount) = some 1 ∧
    (lookupStore (updateCrowdSegment
        (updateCrowdSegment [] (mkSegment "tdr1y4" 0 100) sampleTrip).1
        (mkSegment "tdr1y4" 1 100) sampleTrip).1 (segKey "tdr1y4" 1)).map
      (fun s => s.sampleCount) = some 1 := by
  have h0 : lookupStore ([] : CrowdStore)
      (segmentId (mkSegment "tdr1y4" 0 100)) = none := rfl
  obtain ⟨_, hl0, hother0⟩ :=
    updateCrowdSegment_absent [] (mkSegment "tdr1y4" 0 100) sampleTrip h0
  have habs1 : lookupStore
      ((updateCrowdSegment [] (mkSegment "tdr1y4" 0 100) sampleTrip).1)
      (segmentId (mkSegment "tdr1y4" 1 100)) = none := by
    rw [hother0 (segmentId (mkSegment "tdr1y4" 1 100)) (by decide)]
    rfl
  obtain ⟨hfl1, hl1, hother1⟩ :=
    updateCrowdSegment_absent
      ((updateCrowdSegment [] (mkSegment "tdr1y4" 0 100) sampleTrip).1)
      (mkSegment "tdr1y4" 1 100) sampleTrip habs1
  refine ⟨rfl, hfl1, ?_, ?_⟩
  · have hk : lookupStore (updateCrowdSegment
        (updateCrowdSegment [] (mkSegment "tdr1y4" 0 100) sampleTrip).1
        (mkSegment "tdr1y4" 1 100) sampleTrip).1 (segKey "tdr1y4" 0) =
        some (createdCrowdSegment (mkSegment "tdr1y4" 0 100) sampleTrip) := by
      rw [hother1 (segKey "tdr1y4" 0) (by decide)]
      exact hl0
    rw [hk]
    simp [createdCrowdSegment_sampleCount]
  · have hk : lookupStore (updateCrowdSegment
        (updateCrowdSegment [] (mkSegment "tdr1y4" 0 100) sampleTrip).1
        (mkSegment "tdr1y4" 1 100) sampleTrip).1 (segKey "tdr1y4" 1) =
        some (createdCrowdSegment (mkSegment "tdr1y4" 1 100) sampleTrip) := hl1
    rw [hk]
    simp [createdCrowdSegment_sampleCount]

/-- C6 amended: aggregate records are keyed by the pair (geohash,
startIndex), not by geocell alone.  Ingesting a second segment with the
same geohash and the same start index updates the existing record in place
(sample count incremented, `updated` flag); a second segment with the same
geohash whose composed id is not yet stored creates a fresh one-sample
record and leaves the existing record untouched. -/
theorem C6_one_record_per_cell_and_index (store : CrowdStore) (s t : TripSegment)
    (trip : Trip) (r : CrowdSegment)
    (hg : t.geohash = s.geohash)
    (hlook : lookupStore store (segmentId s) = some r) :
    (t.startIndex = s.startIndex →
      ((updateCrowdSegment store t trip).2 = (false, true) ∧
        (lookupStore (updateCrowdSegment store t trip).1 (segmentId s)).map
          (fun x => x.sampleCount) = some (r.sampleCount + 1))) ∧
    (lookupStore store (segmentId t) = none →
      ((updateCrowdSegment store t trip).2 = (true, false) ∧
        lookupStore (updateCrowdSegment store t trip).1 (segmentId s) = some r ∧
        (lookupStore (updateCrowdSegment store t trip).1 (segmentId t)).map
          (fun x => x.sampleCount) = some 1)) := by
  constructor
  · intro hidx
    have hkey : segmentId t = segmentId s := by
      unfold segmentId
      rw [hg, hidx]
    have hlookt : lookupStore store (segmentId t) = some r := by
      rw [hkey]
      exact hlook
    obtain ⟨hfl, hl, _⟩ := updateCrowdSegment_present store t trip r hlookt
    refine ⟨hfl, ?_⟩
    rw [← hkey, hl]
    simp [updatedCrowdSegment_sampleCount]
  · intro habs
    have hne : segmentId s ≠ segmentId t := by
      intro h
      rw [← h, hlook] at habs
      exact Option.noConfusion habs
    obtain ⟨hfl, hl, hother⟩ := updateCrowdSegment_absent store t trip habs
    refine ⟨hfl, ?_, ?_⟩
    · rw [hother (segmentId s) hne]
      exact hlook
    · rw [hl]
      simp [createdCrowdSegment_sampleCount]

/-- C6 witness: the amended theorem instantiated on a store holding one
record for cell `tdr1y4` at start index 0, with a new segment for the same
cell at start index 1. -/
theorem C6_amended_witness :
    ((mkSegment "tdr1y4" 1 100).geohash = (mkSegment "tdr1y4" 0 100).geohash ∧
      lookupStore [(segKey "tdr1y4" 0,
          createdCrowdSegment (mkSegment "tdr1y4" 0 100) sampleTrip)]
        (segmentId (mkSegment "tdr1y4" 0 100)) =
        some (createdCrowdSegment (mkSegment "tdr1y4" 0 100) sampleTrip)) ∧
    (((mkSegment "tdr1y4" 1 100).startIndex = (mkSegment "tdr1y4" 0 100).startIndex →
      ((updateCrowdSegment [(segKey "tdr1y4" 0,
            createdCrowdSegment (mkSegment "tdr1y4" 0 100) sampleTrip)]
          (mkSegment "tdr1y4" 1 100) sampleTrip).2 = (false, true) ∧
        (lookupStore (updateCrowdSegment [(segKey "tdr1y4" 0,
            createdCrowdSegment (mkSegment "tdr1y4" 0 100) sampleTrip)]
          (mkSegment "tdr1y4" 1 100) sampleTrip).1
          (segmentId (mkSegment "tdr1y4" 0 100))).map
          (fun x => x.sampleCount) =
          some ((createdCrowdSegment (mkSegment "tdr1y4" 0 100) sampleTrip).sampleCount + 1))) ∧
    (lookupStore [(segKey "tdr1y4" 0,
          createdCrowdSegment (mkSegment "tdr1y4" 0 100) sampleTrip)]
        (segmentId (mkSegment "tdr1y4" 1 100)) = none →
      ((updateCrowdSegment [(segKey "tdr1y4" 0,
            createdCrowdSegment (mkSegment "tdr1y4" 0 100) sampleTrip)]
          (mkSegment "tdr1y4" 1 100) sampleTrip).2 = (true, false) ∧
        lookupStore (updateCrowdSegment [(segKey "tdr1y4" 0,
            createdCrowdSegment (mkSegment "tdr1y4" 0 100) sampleTrip)]
          (mkSegment "tdr1y4" 1 100) sampleTrip).1
          (segmentId (mkSegment "tdr1y4" 0 100)) =
          some (createdCrowdSegment (mkSegment "tdr1y4" 0 100) sampleTrip) ∧
        (lookupStore (updateCrowdSegment [(segKey "tdr1y4" 0,
            createdCrowdSegment (mkSegment "tdr1y4" 0 100) sampleTrip)]
          (mkSegment "tdr1y4" 1 100) sampleTrip).1
          (segmentId (mkSegment "tdr1y4" 1 100))).map
          (fun x => x.sampleCount) = some 1))) := by
  have hlook : lookupStore [(segKey "tdr1y4" 0,
      createdCrowdSegment (mkSegment "tdr1y4" 0 100) sampleTrip)]
      (segmentId (mkSegment "tdr1y4" 0 100)) =
      some (createdCrowdSegment (mkSegment "tdr1y4" 0 100) sampleTrip) := by
    simp only [lookupStore]
    rw [if_pos (by decide : segKey "tdr1y4" 0 = segmentId (mkSegment "tdr1y4" 0 100))]
  exact ⟨⟨rfl, hlook⟩,
    C6_one_record_per_cell_and_index _ (mkSegment "tdr1y4" 0 100)
      (mkSegment "tdr1y4" 1 100) sampleTrip _ rfl hlook⟩

theorem segmentId_mkSegment (g : String) (i : ℕ) (x : ℚ) :
    segmentId (mkSegment g i x) = segKey g i :=
  rfl

theorem syncTripsLoop_syncedCount (share : Bool) (userId : String) :
    ∀ (trips : List Trip) (st : SyncState),
    (syncTripsLoop share userId trips st).syncedCount = st.syncedCount + trips.length := by
  intro trips
  induction trips with
  | nil => intro st; simp [syncTripsLoop]
  | cons t rest ih =>
    intro st
    show (syncTripsLoop share userId rest _).syncedCount = _
    rw [ih]
    cases share <;> simp <;> omega

/-- Helper: syncing a single trip carrying exactly one segment for cell
`g` at index `i` (with data sharing on) increments the stored sample count
of that cell's record by one, creating the record if absent. -/
theorem syncTrips_single_segment_count (tstore : TripsStore) (cstore : CrowdStore)
    (userId : String) (trip : Trip) (g : String) (i : ℕ) (x : ℚ)
    (hseg : trip.segments = [mkSegment g i x]) :
    (lookupStore (syncTrips true tstore cstore ⟨userId, [trip]⟩).crowdStore
        (segKey g i)).map (fun sgm => sgm.sampleCount) =
      some ((match lookupStore cstore (segKey g i) with
             | none => 0
             | some r => r.sampleCount) + 1) := by
  have hcs : (syncTrips true tstore cstore ⟨userId, [trip]⟩).crowdStore =
      (ingestSegments trip trip.segments (cstore, 0, 0)).1 := rfl
  rw [hcs, hseg]
  have hone : (ingestSegments trip [mkSegment g i x] (cstore, 0, 0)).1 =
      (updateCrowdSegment cstore (mkSegment g i x) trip).1 := rfl
  rw [hone]
  rcases h : lookupStore cstore (segKey g i) with _ | r
  · obtain ⟨_, hl, _⟩ := updateCrowdSegment_absent cstore (mkSegment g i x) trip h
    rw [segmentId_mkSegment] at hl
    rw [hl]
    simp [createdCrowdSegment_sampleCount]
  · obtain ⟨_, hl, _⟩ := updateCrowdSegment_present cstore (mkSegment g i x) trip r h
    rw [segmentId_mkSegment] at hl
    rw [hl]
    simp [updatedCrowdSegment_sampleCount]

/-- C2 amended: `syncTrips` is not idempotent at the trip level.  It never
consults the `synced` flag: the response's `syncedCount` always equals the
full batch length, and every submission of a trip re-applies its segments —
syncing a single-segment trip increments the affected cell's `sampleCount`
by one more on every (re-)submission. -/
theorem C2_sync_reapplies_every_submission (share : Bool) (tstore : TripsStore)
    (cstore : CrowdStore) (userId : String) (trips : List Trip)
    (trip : Trip) (g : String) (i : ℕ) (x : ℚ)
    (hseg : trip.segments = [mkSegment g i x]) :
    (syncTrips share tstore cstore ⟨userId, trips⟩).syncedCount = trips.length ∧
    (lookupStore (syncTrips true tstore cstore ⟨userId, [trip]⟩).crowdStore
        (segKey g i)).map (fun sgm => sgm.sampleCount) =
      some ((match lookupStore cstore (segKey g i) with
             | none => 0
             | some r => r.sampleCount) + 1) := by
  refine ⟨?_, syncTrips_single_segment_count tstore cstore userId trip g i x hseg⟩
  show (syncTripsLoop share userId trips _).syncedCount = trips.length
  rw [syncTripsLoop_syncedCount]
  simp

/-- A trip whose segment list is a single sample for cell `tdr1y4`. -/
def tripWithOneSegment : Trip :=
  { sampleTrip with segments := [mkSegment "tdr1y4" 0 100] }

/-- C2 witness: the amended theorem instantiated on one trip with one
segment, synced into empty stores. -/
theorem C2_amended_witness :
    tripWithOneSegment.segments = [mkSegment "tdr1y4" 0 100] ∧
    ((syncTrips true [] [] ⟨"u1", [tripWithOneSegment]⟩).syncedCount =
        [tripWithOneSegment].length ∧
      (lookupStore (syncTrips true [] [] ⟨"u1", [tripWithOneSegment]⟩).crowdStore
          (segKey "tdr1y4" 0)).map (fun sgm => sgm.sampleCount) =
        some ((match lookupStore ([] : CrowdStore) (segKey "tdr1y4" 0) with
               | none => 0
               | some r => r.sampleCount) + 1)) :=
  ⟨rfl, C2_sync_reapplies_every_submission true [] [] "u1" [tripWithOneSegment]
    tripWithOneSegment "tdr1y4" 0 100 rfl⟩

/-- C2 counterexample: submitting the batch `[tripWithOneSegment]` twice.
After the first submission the cell's sample count is 1; after re-submitting
the identical trip id it is 2 (the segment was applied again), and the
second response reports `syncedCount = 1` even though 0 trips in the batch
were genuinely new. -/
theorem C2_counterexample :
    (syncTrips true [] [] ⟨"u1", [tripWithOneSegment]⟩).syncedCount = 1 ∧
    (lookupStore (syncTrips true [] [] ⟨"u1", [tripWithOneSegment]⟩).crowdStore
        (segKey "tdr1y4" 0)).map (fun sgm => sgm.sampleCount) = some 1 ∧
    (syncTrips true
        (syncTrips true [] [] ⟨"u1", [tripWithOneSegment]⟩).tripsStore
        (syncTrips true [] [] ⟨"u1", [tripWithOneSegment]⟩).crowdStore
        ⟨"u1", [tripWithOneSegment]⟩).syncedCount = 1 ∧
    (lookupStore (syncTrips true
        (syncTrips true [] [] ⟨"u1", [tripWithOneSegment]⟩).tripsStore
        (syncTrips true [] [] ⟨"u1", [tripWithOneSegment]⟩).crowdStore
        ⟨"u1", [tripWithOneSegment]⟩).crowdStore
        (segKey "tdr1y4" 0)).map (fun sgm => sgm.sampleCount) = some 2 := by
  have hsynced1 : (syncTrips true [] [] ⟨"u1", [tripWithOneSegment]⟩).syncedCount = 1 := by
    show (syncTripsLoop true "u1" [tripWithOneSegment] _).syncedCount = 1
    rw [syncTripsLoop_syncedCount]
    rfl
  have hcount1 := syncTrips_single_segment_count [] [] "u1" tripWithOneSegment
    "tdr1y4" 0 100 rfl
  have hcount1' : (lookupStore (syncTrips true [] [] ⟨"u1", [tripWithOneSegment]⟩).crowdStore
      (segKey "tdr1y4" 0)).map (fun sgm => sgm.sampleCount) = some 1 := by
    rw [hcount1]
    rfl
  refine ⟨hsynced1, hcount1', ?_, ?_⟩
  · show (syncTripsLoop true "u1" [tripWithOneSegment] _).syncedCount = 1
    rw [syncTripsLoop_syncedCount]
    rfl
  · have hcount2 := syncTrips_single_segment_count
      (syncTrips true [] [] ⟨"u1", [tripWithOneSegment]⟩).tripsStore
      (syncTrips true [] [] ⟨"u1", [tripWithOneSegment]⟩).crowdStore
      "u1" tripWithOneSegment "tdr1y4" 0 100 rfl
    rcases h : lookupStore
        (syncTrips true [] [] ⟨"u1", [tripWithOneSegment]⟩).crowdStore
        (segKey "tdr1y4" 0) with _ | r
    · rw [h] at hcount1'
      exact Option.noConfusion hcount1'
    · rw [h] at hcount1' hcount2
      have hr : r.sampleCount = 1 := by
        simpa using hcount1'
      rw [hcount2]
      show some (r.sampleCount + 1) = some 2
      rw [hr]
